import Mathlib

/-!
Verification of the Network Medic diagnostic engine (src/src/App.jsx) against
its natural-language specification.

The shallow embedding below translates the diagnostic-engine parts of the
source into Lean: the probe outcome record produced by timedFetch, the
per-scan derived values computed in runOneScan, the health classifier
classifyHealth, the `health` memo that feeds it, the suggestion engine
scoreDiagnosis, and the scan-session state machine formed by the React
component's state variables (stage, abPhase, externalChecksEnabled,
abModeEnabled, baseline, after) together with the user-triggered operations
runScanFlow, runAfterFixFlow and the two toggles.

Strings from the source are transliterated to plain ASCII (unicode quotes and
dashes dropped); icon fields and purely presentational note strings are
omitted.  Machine timing values (elapsed milliseconds) are Nat.
-/

set_option autoImplicit false

namespace NetworkMedic

/-- Severity level of a health diagnosis (`"red" | "amber" | "green"`). -/
inductive Level
  | red
  | amber
  | green
deriving DecidableEq, Repr

/-- Result of `classifyHealth`: level, title, detail and short label
(the `icon` field of the source is presentational and omitted). -/
structure HealthDiagnosis where
  level : Level
  title : String
  detail : String
  label : String
deriving DecidableEq, Repr

/-- Embedding of `classifyHealth` (App.jsx lines 106-171).  `online` is the
device-online flag, `checks` is `externalChecksEnabled`, `latencyMs` the
aggregated best latency, `dnsOk` and `captiveLikely` the two heuristic
verdicts.  The branch order is exactly the source's `if` chain; note the
latency branch precedes the DNS branch, and the DNS branch's level repeats
the `latencyMs >= 900 ? red : amber` ternary of the source. -/
def classifyHealth (online checks : Bool) (latencyMs : Nat)
    (dnsOk captiveLikely : Bool) : HealthDiagnosis :=
  if !online then
    ⟨.red, "No Connectivity",
      "Device appears offline (or network blocks connectivity).", "OFFLINE"⟩
  else if !checks then
    ⟨.amber, "Limited Scan Mode",
      "External diagnostics are OFF. Enable them for deeper checks.",
      "PRIVACY MODE"⟩
  else if captiveLikely then
    ⟨.amber, "Captive Portal Suspected",
      "You may be stuck on a Login required Wi-Fi page.", "LOGIN REQUIRED"⟩
  else if 900 ≤ latencyMs then
    ⟨.amber, "Stalled Connection",
      "Latency is extremely high - congestion or a stuck radio session is likely.",
      "CONGESTION / STALL"⟩
  else if !dnsOk then
    ⟨if 900 ≤ latencyMs then .red else .amber, "DNS Issues",
      "Domain resolution appears broken (often APN/DNS/VPN settings).",
      "DNS DEGRADED"⟩
  else
    ⟨.green, "Healthy",
      "Data path looks OK (best-effort browser checks).", "OK"⟩

/-- Outcome of one `timedFetch` probe (App.jsx lines 64-104).  `ok` means the
fetch resolved without throwing (the source's `ok` field; the spec's
`completed`); `ms` is the measured elapsed time, which `timedFetch` reports
as a number on both the success and the failure path.  The `status`, `type`,
`opaque` and `error` fields play no role in the claims and are omitted. -/
structure ProbeOutcome where
  ok : Bool
  ms : Nat
deriving DecidableEq, Repr

/-- The probe results one enabled scan works from: the device-online flag
read at scan start and the four probes issued by `runOneScan`
(google204, cfTrace, cfHome in parallel, then the gstatic204 captive probe).
The DoH probe only affects a note string and is omitted. -/
structure ProbeEnv where
  online : Bool
  g204 : ProbeOutcome
  cfTrace : ProbeOutcome
  cfHome : ProbeOutcome
  captiveProbe : ProbeOutcome
deriving DecidableEq, Repr

/-- The latency list of `runOneScan` (lines 721-723):
`[g204, cfTrace, cfHome].filter(x => x && typeof x.ms === "number").map(x => x.ms)`.
Every `timedFetch` result is an object with a numeric `ms` (both branches of
`timedFetch` set it), so the filter keeps all three entries; in the embedding
`ms : Nat` makes the filter predicate identically true and it is dropped. -/
def scanLatencies (e : ProbeEnv) : List Nat :=
  [e.g204.ms, e.cfTrace.ms, e.cfHome.ms]

/-- `latencies.length ? Math.min(...latencies) : null` (line 725). -/
def bestMsOf : List Nat → Option Nat
  | [] => none
  | x :: xs => some (xs.foldl Nat.min x)

/-- `latencies.length ? Math.max(...latencies) : null` (line 726). -/
def worstMsOf : List Nat → Option Nat
  | [] => none
  | x :: xs => some (xs.foldl Nat.max x)

/-- Transport evidence (line 742): `[g204, cfTrace, cfHome].some(p => p?.ok)`. -/
def transportOk (e : ProbeEnv) : Bool :=
  e.g204.ok || e.cfTrace.ok || e.cfHome.ok

/-- Domain evidence (line 745): `g204?.ok || cfHome?.ok`. -/
def domainOk (e : ProbeEnv) : Bool :=
  e.g204.ok || e.cfHome.ok

/-- `dnsLikelyBroken = transportOk && !domainOk` (line 748). -/
def dnsLikelyBroken (e : ProbeEnv) : Bool :=
  transportOk e && !domainOk e

/-- The captive-portal heuristic of `runOneScan` (lines 735-738):
`online && (captiveProbe.ok === false || captiveProbe.ms >= 1800) && (g204.ok || cf.ok)`.
The identifier `cf` in the source is the binding name of the cloudflare
trace probe from the pre-refactor two-probe variant (the scan result still
stores that probe under the key `cloudflare: cfTrace`), so it is embedded
as the `cfTrace` outcome. -/
def captiveSuspected (e : ProbeEnv) : Bool :=
  e.online && (!e.captiveProbe.ok || decide (1800 ≤ e.captiveProbe.ms))
    && (e.g204.ok || e.cfTrace.ok)

/-- One completed scan phase as consumed by the classifiers: the fields of
the object `runOneScan` returns that the engine reads (label, timestamp,
networkHint and per-probe raw data are carried through unchanged by the
source and omitted here). -/
structure ScanResult where
  online : Bool
  bestMs : Option Nat
  worstMs : Option Nat
  dnsOk : Option Bool
  captiveSuspected : Option Bool
deriving DecidableEq, Repr

/-- Embedding of `runOneScan` (lines 686-792) as a function of the probe
environment.  `checks` is the `externalChecksEnabled` value the async flow
captured when it started.  Disabled scans return the all-null result of
lines 690-712; enabled scans return the derived values of lines 715-791. -/
def runOneScan (checks : Bool) (e : ProbeEnv) : ScanResult :=
  if !checks then
    { online := e.online, bestMs := none, worstMs := none,
      dnsOk := none, captiveSuspected := none }
  else
    { online := e.online,
      bestMs := bestMsOf (scanLatencies e),
      worstMs := worstMsOf (scanLatencies e),
      dnsOk := some (!dnsLikelyBroken e),
      captiveSuspected := some (captiveSuspected e) }

/-- The `health` memo (lines 642-654): defaults `bestMs ?? 9999`,
`dns.ok ?? true`, `captive.suspected ?? false` applied to the latest
result (or no result), then `classifyHealth`. -/
def healthOf (online checks : Bool) (latest : Option ScanResult) : HealthDiagnosis :=
  classifyHealth online checks
    ((latest.bind (fun r => r.bestMs)).getD 9999)
    ((latest.bind (fun r => r.dnsOk)).getD true)
    ((latest.bind (fun r => r.captiveSuspected)).getD false)

/-- Congestion tier (`normal | elevated | severe`). -/
inductive Tier
  | normal
  | elevated
  | severe
deriving DecidableEq, Repr

/-- The latency tier of the scan result's note ternary (lines 772-778):
`bestMs >= 900` is severe ("Very high latency"), `bestMs >= 450` is elevated
("Elevated latency"), otherwise normal ("Latency looks normal"); the same
thresholds drive the per-probe status colouring (lines 1268-1272). -/
def tier (bestMs : Nat) : Tier :=
  if 900 ≤ bestMs then .severe
  else if 450 ≤ bestMs then .elevated
  else .normal

/-- Numeric severity rank of a tier, used to state monotonicity. -/
def tierRank : Tier → Nat
  | .normal => 0
  | .elevated => 1
  | .severe => 2

/-- Result of `scoreDiagnosis`: the suggestion label, reason and bullets. -/
structure Suggestion where
  label : String
  reason : String
  bullets : List String
deriving DecidableEq, Repr

/-- The conditional busy bullet (lines 462-464): pushed before any branch
returns, and spread at the end of each branch's bullet list. -/
def busyBullets (longTaskMs : Nat) : List String :=
  if 1500 ≤ longTaskMs then
    ["Device seems busy - close heavy apps and retry."]
  else []

/-- The final three branches of `scoreDiagnosis` (lines 520-542), reached
when no captive/DNS/delta branch matched. -/
def latencySuggestion (latencyMs longTaskMs : Nat) : Suggestion :=
  if 900 ≤ latencyMs then
    ⟨"Radio Congestion",
      "Latency is extremely high. Congestion or a stalled session is likely.",
      ["Toggle airplane mode then re-run.",
        "Retry later (peak-time congestion)."] ++ busyBullets longTaskMs⟩
  else if 450 ≤ latencyMs then
    ⟨"Degraded",
      "Latency is elevated - indoor dead spot, congestion, or throttling.",
      ["Re-test with Wi-Fi OFF.",
        "Try a different location/time."] ++ busyBullets longTaskMs⟩
  else
    ⟨"Healthy",
      "Connectivity looks normal based on browser-safe diagnostics.",
      ["If apps still fail, check VPN/Private DNS/data saver modes."]
        ++ busyBullets longTaskMs⟩

/-- The baseline/after delta branches of `scoreDiagnosis` (lines 492-518):
guarded by both results and both `bestMs` values being present; the stalled
branch additionally requires `baseline.latency.bestMs >= 600` and the
congestion branch `after.latency.bestMs >= 900`; on no match control falls
through to the latency branches. -/
def deltaSuggestion (baseline after : Option ScanResult)
    (latencyMs longTaskMs : Nat) : Suggestion :=
  match baseline, after with
  | some b, some a =>
    match b.bestMs, a.bestMs with
    | some bb, some ab =>
      let delta : Int := (ab : Int) - (bb : Int)
      if delta ≤ -250 ∧ 600 ≤ bb then
        ⟨"Stalled Radio Session",
          "After airplane mode, latency improved a lot - often a stuck data session.",
          ["If frequent: reboot phone or re-seat SIM.",
            "If location-specific: tower handover/congestion."]
            ++ busyBullets longTaskMs⟩
      else if 250 ≤ delta ∧ 900 ≤ ab then
        ⟨"Congestion / Coverage",
          "Latency worsened and is very high - likely congestion, weak coverage, or throttling.",
          ["Move to open area / near window.",
            "Try 4G-only mode temporarily."] ++ busyBullets longTaskMs⟩
      else latencySuggestion latencyMs longTaskMs
    | _, _ => latencySuggestion latencyMs longTaskMs
  | _, _ => latencySuggestion latencyMs longTaskMs

/-- Embedding of `scoreDiagnosis` (lines 445-543).  The source's
`latest = after || baseline` picks `after` when present, else `baseline`;
`latencyMs = latest.latency.bestMs ?? 9999`; the captive test is JS
truthiness on the tri-state `suspected` (true only for `some true`) and the
DNS test is `=== false` (true only for `some false`). -/
def scoreDiagnosis (checks : Bool) (baseline after : Option ScanResult)
    (longTaskMs : Nat) : Suggestion :=
  if !checks then
    ⟨"Limited Scan",
      "External diagnostics are OFF. Enable them for deeper checks.",
      ["No external probes performed.", "No data stored by this app."]⟩
  else
    match (match after with | some a => some a | none => baseline) with
    | none => ⟨"Ready", "Run a scan to generate results.", []⟩
    | some latest =>
      if latest.captiveSuspected = some true then
        ⟨"Captive Portal",
          "You may be on Wi-Fi that requires login. Turn off Wi-Fi or complete sign-in.",
          ["Open browser to sign in (public Wi-Fi).",
            "Disable Wi-Fi to test mobile data."] ++ busyBullets longTaskMs⟩
      else if latest.dnsOk = some false then
        ⟨"DNS / APN Issue",
          "Domains appear broken - often APN/VPN/Private DNS misconfiguration.",
          ["Check APN (SIMBA often requires APN: tpg).",
            "Disable VPN / Private DNS and retry."] ++ busyBullets longTaskMs⟩
      else
        deltaSuggestion baseline after (latest.bestMs.getD 9999) longTaskMs

/-- A/B phase state (`abPhase`): `"none" | "baselineDone" | "afterDone"`. -/
inductive ABPhase
  | nonePhase
  | baselineDone
  | afterDone
deriving DecidableEq, Repr

/-- Scan stage (`stage`).  The source keeps a single `"scanning"` string for
both flows; which flow is awaiting, and the `externalChecksEnabled` /
`abModeEnabled` values its closure captured when it started, are determined
by which async function is in flight, so the embedding records them in the
scanning constructors. -/
inductive Stage
  | idle
  | scanningBaseline (checks abMode : Bool)
  | scanningAfter (checks : Bool)
  | done
deriving DecidableEq, Repr

/-- `stage === "scanning"` (the guard of lines 795 and 848). -/
def Stage.isScanning : Stage → Bool
  | .scanningBaseline _ _ => true
  | .scanningAfter _ => true
  | _ => false

/-- The scan-session state: the React state variables `stage`, `abPhase`,
`externalChecksEnabled` (`checks`), `abModeEnabled` (`abMode`), `baseline`
and `after`.  Progress/scanMeta/longTask state is presentational and
omitted. -/
structure Session where
  stage : Stage
  abPhase : ABPhase
  checks : Bool
  abMode : Bool
  baseline : Option ScanResult
  after : Option ScanResult
deriving DecidableEq, Repr

/-- Initial component state (lines 546-557): idle, no phase, external checks
off, A/B mode on, no results. -/
def initSession : Session :=
  { stage := .idle, abPhase := .nonePhase, checks := false, abMode := true,
    baseline := none, after := none }

/-- User-triggered events on the session.  A scan is asynchronous in the
source, so starting a flow and the flow completing are separate events;
`completeScan` carries the probe outcomes the in-flight `runOneScan`
observed.  `startAfter` is clicking the Re-Scan button, which is only
rendered when `showAfterButton` holds (lines 916-917, 1119-1130). -/
inductive Event
  | startScan
  | startAfter
  | completeScan (env : ProbeEnv)
  | toggleChecks (v : Bool)
  | toggleAb (v : Bool)

/-- One step of the session state machine.

* `startScan` — `runScanFlow` (lines 794-845): no-op while scanning, else
  enters the scanning stage capturing the current `checks` and `abMode`.
* `startAfter` — the Re-Scan button plus `runAfterFixFlow`'s own guards
  (lines 848-849): requires not scanning, `abMode && checks`, and the button
  to be visible (`abPhase = baselineDone`); else nothing happens.
* `completeScan env` — the continuation of whichever flow is in flight:
  the baseline flow sets `baseline`, clears `after` (line 825), sets
  `abPhase` from its captured `abMode && checks` (line 832) and stage
  `done`; the after flow sets `after`, `abPhase = afterDone`, stage `done`.
  With no flow in flight it changes nothing.
* `toggleChecks v` — the External Diagnostics toggle handler
  (lines 965-970): sets `checks`, resets `abPhase`, `baseline`, `after`.
* `toggleAb v` — the A/B toggle handler (lines 977-981): sets `abMode`,
  resets `abPhase` and `after`. -/
def step (s : Session) : Event → Session
  | .startScan =>
    if s.stage.isScanning then s
    else { s with stage := .scanningBaseline s.checks s.abMode }
  | .startAfter =>
    if s.stage.isScanning then s
    else if s.abMode && s.checks && s.abPhase = .baselineDone then
      { s with stage := .scanningAfter s.checks }
    else s
  | .completeScan env =>
    match s.stage with
    | .scanningBaseline c ab =>
      { s with baseline := some (runOneScan c env), after := none,
               abPhase := if ab && c then .baselineDone else .nonePhase,
               stage := .done }
    | .scanningAfter c =>
      { s with after := some (runOneScan c env),
               abPhase := .afterDone, stage := .done }
    | _ => s
  | .toggleChecks v =>
    { s with checks := v, abPhase := .nonePhase, baseline := none,
             after := none }
  | .toggleAb v =>
    { s with abMode := v, abPhase := .nonePhase, after := none }

/-- States reachable from the initial component state by any sequence of
user events and scan completions. -/
inductive Reachable : Session → Prop
  | init : Reachable initSession
  | step (s : Session) (e : Event) : Reachable s → Reachable (step s e)

/-- States reachable when every started scan runs to completion before the
next user action (the serialized discipline the spec's concurrency model
assumes of the orchestrator). -/
inductive ReachableSer : Session → Prop
  | init : ReachableSer initSession
  | fullScan (s : Session) (env : ProbeEnv) : ReachableSer s →
      ReachableSer (step (step s .startScan) (.completeScan env))
  | fullAfter (s : Session) (env : ProbeEnv) : ReachableSer s →
      ReachableSer (step (step s .startAfter) (.completeScan env))
  | toggleChecks (s : Session) (v : Bool) : ReachableSer s →
      ReachableSer (step s (.toggleChecks v))
  | toggleAb (s : Session) (v : Bool) : ReachableSer s →
      ReachableSer (step s (.toggleAb v))

/-- The ScanSession invariant of the spec data model: `after` is only set
when `baseline` is set and `abEnabled = true`. -/
def SessionInv (s : Session) : Prop :=
  s.after.isSome → (s.baseline.isSome ∧ s.abMode = true)

/-- The inductive strengthening of `SessionInv` used for serialized traces:
between serialized operations the session is quiescent, and a
baseline-ready phase always carries a baseline. -/
def SessionInvAux (s : Session) : Prop :=
  SessionInv s ∧ (s.abPhase = .baselineDone → s.baseline.isSome)
    ∧ s.stage.isScanning = false

/-!
Spec-modelled reference definitions, used only to compare the source
functions against the specification's own words.
-/

/-- Modelled from the spec: which rule of the Health Classifier's ordered
decision list (section 4.4) fires first, numbered 1-6:
offline, probing disabled, captive suspected, DNS not ok,
`bestMs >= 900`, healthy. -/
def specHealthRule (online checks : Bool) (latencyMs : Nat)
    (dnsOk captiveLikely : Bool) : Nat :=
  if !online then 1
  else if !checks then 2
  else if captiveLikely then 3
  else if !dnsOk then 4
  else if 900 ≤ latencyMs then 5
  else 6

/-- Modelled from the spec: the level each rule of the decision list
assigns (rule 1 red, rules 2-5 amber, rule 6 green). -/
def specRuleLevel : Nat → Level
  | 1 => .red
  | 6 => .green
  | _ => .amber

/-- The decision list the code actually implements: the spec's list with
rule 5 (latency) evaluated before rule 4 (DNS). -/
def amendedHealthRule (online checks : Bool) (latencyMs : Nat)
    (dnsOk captiveLikely : Bool) : Nat :=
  if !online then 1
  else if !checks then 2
  else if captiveLikely then 3
  else if 900 ≤ latencyMs then 5
  else if !dnsOk then 4
  else 6

/-- The spec rule a `classifyHealth` output witnesses, recovered from its
(pairwise distinct) title. -/
def ruleOfTitle (t : String) : Nat :=
  if t = "No Connectivity" then 1
  else if t = "Limited Scan Mode" then 2
  else if t = "Captive Portal Suspected" then 3
  else if t = "DNS Issues" then 4
  else if t = "Stalled Connection" then 5
  else 6

/-- Modelled from the spec: the captive verdict formula of section 4.3,
`suspected = deviceOnline AND transportOk AND
(captiveProbe.completed = false OR captiveProbe.elapsedMs >= 1800)`,
with `transportOk` ranging over all three primary probes. -/
def specCaptiveSuspected (e : ProbeEnv) : Bool :=
  e.online && transportOk e
    && (!e.captiveProbe.ok || decide (1800 ≤ e.captiveProbe.ms))

/-!
Theorems settling the claims.
-/

/-- Claim C9: the latency tier is a pure, monotonic function of bestMs with
thresholds: below 450 normal, 450 to 899 elevated, 900 and above severe;
in particular tier 420 is normal, tier 450 elevated, tier 899 elevated and
tier 900 severe. -/
theorem claim_c9 (a b : Nat) (h : a ≤ b) :
    tierRank (tier a) ≤ tierRank (tier b) ∧
    (∀ n : Nat,
      (tier n = .normal ↔ n < 450) ∧
      (tier n = .elevated ↔ 450 ≤ n ∧ n < 900) ∧
      (tier n = .severe ↔ 900 ≤ n)) ∧
    tier 420 = .normal ∧ tier 450 = .elevated ∧
    tier 899 = .elevated ∧ tier 900 = .severe := by
  refine ⟨?_, ?_, by decide, by decide, by decide, by decide⟩
  · unfold tier
    split_ifs <;> (simp only [tierRank]; omega)
  · intro n
    unfold tier
    refine ⟨?_, ?_, ?_⟩ <;> split_ifs <;> (try simp_all) <;> omega

/-- Witness for C9 at the concrete pair 0 ≤ 1. -/
theorem claim_c9_witness : tierRank (tier 0) ≤ tierRank (tier 1) :=
  (claim_c9 0 1 (by decide)).1

/-- Claim C10: in classifyHealth the red case of the DNS-issues branch is
unreachable (the latency branch already returned for every latencyMs at or
above 900), so every DNS Issues diagnosis is amber; conversely red outputs
only come from the offline branch. -/
theorem claim_c10 (online checks : Bool) (latencyMs : Nat)
    (dnsOk captiveLikely : Bool) :
    ((classifyHealth online checks latencyMs dnsOk captiveLikely).title
        = "DNS Issues" →
      (classifyHealth online checks latencyMs dnsOk captiveLikely).level
        = .amber) ∧
    ((classifyHealth online checks latencyMs dnsOk captiveLikely).level
        = .red →
      (classifyHealth online checks latencyMs dnsOk captiveLikely).title
        = "No Connectivity") := by
  unfold classifyHealth
  split_ifs <;> exact ⟨fun h => by simp_all, fun h => by simp_all⟩

/-- Witness for C10 at a concrete input that takes the DNS branch. -/
theorem claim_c10_witness :
    (classifyHealth true true 100 false false).level = .amber :=
  (claim_c10 true true 100 false false).1 (by decide)

/-- Claim C5: with probing enabled the DNS verdict is the negation of
(transportOk and not domainOk): transport evidence with failing domains
gives ok = false, no transport evidence gives ok = true; with probing
disabled the verdict is null. -/
theorem claim_c5 (e : ProbeEnv) :
    (runOneScan true e).dnsOk = some (!(transportOk e && !domainOk e)) ∧
    (transportOk e = true → domainOk e = false →
      (runOneScan true e).dnsOk = some false) ∧
    (transportOk e = false → (runOneScan true e).dnsOk = some true) ∧
    (runOneScan false e).dnsOk = none := by
  refine ⟨rfl, ?_, ?_, rfl⟩
  · intro h1 h2
    simp [runOneScan, dnsLikelyBroken, h1, h2]
  · intro h1
    simp [runOneScan, dnsLikelyBroken, h1]

/-- Witness for C5: only the bare trace probe completed, so transport is ok
but domains are not, and the verdict is ok = false. -/
theorem claim_c5_witness :
    (runOneScan true ⟨true, ⟨false, 100⟩, ⟨true, 120⟩, ⟨false, 130⟩,
      ⟨true, 90⟩⟩).dnsOk = some false :=
  (claim_c5 ⟨true, ⟨false, 100⟩, ⟨true, 120⟩, ⟨false, 130⟩, ⟨true, 90⟩⟩).2.1
    rfl rfl

/-- Counterexample to claim C2: a scan in which zero probes completed still
gets a non-null bestMs and worstMs (elapsed times are recorded for failed
probes too), and a scan with zero completed probes and small elapsed times
is classified green by the health pipeline. -/
theorem claim_c2_counterexample :
    (runOneScan true ⟨true, ⟨false, 2500⟩, ⟨false, 2500⟩, ⟨false, 2500⟩,
      ⟨false, 2500⟩⟩).bestMs = some 2500 ∧
    (runOneScan true ⟨true, ⟨false, 2500⟩, ⟨false, 2500⟩, ⟨false, 2500⟩,
      ⟨false, 2500⟩⟩).worstMs = some 2500 ∧
    (healthOf true true (some (runOneScan true ⟨true, ⟨false, 10⟩,
      ⟨false, 12⟩, ⟨false, 11⟩, ⟨false, 10⟩⟩))).level = .green := by
  decide

/-- Claim C2 as amended: the aggregation counts every probe's elapsed time,
completed or not, so a scan with zero completed probes has
bestMs and worstMs equal to the min and max over all three primary probes'
elapsed times (never null), and the health pipeline classifies such a scan
green whenever the device is online and that minimum is below 900. -/
theorem claim_c2_amended (e : ProbeEnv) (hg : e.g204.ok = false)
    (ht : e.cfTrace.ok = false) (hh : e.cfHome.ok = false) :
    (runOneScan true e).bestMs
      = some (min (min e.g204.ms e.cfTrace.ms) e.cfHome.ms) ∧
    (runOneScan true e).worstMs
      = some (max (max e.g204.ms e.cfTrace.ms) e.cfHome.ms) ∧
    (e.online = true →
      min (min e.g204.ms e.cfTrace.ms) e.cfHome.ms < 900 →
      (healthOf true true (some (runOneScan true e))).level = .green) := by
  refine ⟨rfl, rfl, ?_⟩
  intro ho hlt
  simp [healthOf, runOneScan, classifyHealth, scanLatencies, bestMsOf,
    dnsLikelyBroken, transportOk, domainOk, captiveSuspected, hg, ht, hh,
    Nat.not_le.mpr hlt]
  have hone : ¬(900 ≤ e.g204.ms ∧ 900 ≤ e.cfTrace.ms ∧ 900 ≤ e.cfHome.ms) := by
    rcases min_lt_iff.mp hlt with h1 | h1
    · rcases min_lt_iff.mp h1 with h2 | h2 <;> omega
    · omega
  simp [hone]

/-- Witness for C2 (amended) at a concrete all-failed fast scan. -/
theorem claim_c2_witness :
    (healthOf true true (some (runOneScan true ⟨true, ⟨false, 20⟩,
      ⟨false, 30⟩, ⟨false, 25⟩, ⟨false, 2500⟩⟩))).level = .green :=
  (claim_c2_amended ⟨true, ⟨false, 20⟩, ⟨false, 30⟩, ⟨false, 25⟩,
    ⟨false, 2500⟩⟩ rfl rfl rfl).2.2 rfl (by decide)

/-- Counterexample to claim C3: a scan in which only the cfHome probe
completed has transport evidence, the device is online and the captive
probe failed, so the spec formula makes suspected true, but the code
computes suspected = false (its captive transport evidence only consults
the g204 and cloudflare-trace probes). -/
theorem claim_c3_counterexample :
    transportOk ⟨true, ⟨false, 100⟩, ⟨false, 110⟩, ⟨true, 120⟩,
      ⟨false, 2500⟩⟩ = true ∧
    specCaptiveSuspected ⟨true, ⟨false, 100⟩, ⟨false, 110⟩, ⟨true, 120⟩,
      ⟨false, 2500⟩⟩ = true ∧
    (runOneScan true ⟨true, ⟨false, 100⟩, ⟨false, 110⟩, ⟨true, 120⟩,
      ⟨false, 2500⟩⟩).captiveSuspected = some false := by
  decide

/-- Claim C3 as amended: the captive verdict is deviceOnline AND
(g204 or cfTrace completed) AND (captive probe failed or took at least
1800 ms) - transport evidence restricted to two of the three primary
probes; consequently a scan with deviceOnline = false, or with no
transport evidence at all, still has suspected = false, and a disabled
scan has suspected = null. -/
theorem claim_c3_amended (e : ProbeEnv) :
    (runOneScan true e).captiveSuspected
      = some (e.online
          && (!e.captiveProbe.ok || decide (1800 ≤ e.captiveProbe.ms))
          && (e.g204.ok || e.cfTrace.ok)) ∧
    (e.online = false → (runOneScan true e).captiveSuspected = some false) ∧
    (transportOk e = false →
      (runOneScan true e).captiveSuspected = some false) ∧
    (runOneScan false e).captiveSuspected = none := by
  refine ⟨rfl, ?_, ?_, rfl⟩
  · intro ho
    simp [runOneScan, captiveSuspected, ho]
  · intro htr
    simp [transportOk] at htr
    simp [runOneScan, captiveSuspected, htr]

/-- Witness for C3 (amended) at a concrete offline, all-failed scan. -/
theorem claim_c3_witness :
    (runOneScan true ⟨false, ⟨false, 50⟩, ⟨false, 60⟩, ⟨false, 70⟩,
      ⟨false, 2500⟩⟩).captiveSuspected = some false ∧
    (runOneScan false ⟨false, ⟨false, 50⟩, ⟨false, 60⟩, ⟨false, 70⟩,
      ⟨false, 2500⟩⟩).captiveSuspected = none :=
  ⟨(claim_c3_amended ⟨false, ⟨false, 50⟩, ⟨false, 60⟩, ⟨false, 70⟩,
      ⟨false, 2500⟩⟩).2.1 rfl,
    (claim_c3_amended ⟨false, ⟨false, 50⟩, ⟨false, 60⟩, ⟨false, 70⟩,
      ⟨false, 2500⟩⟩).2.2.2⟩

/-- Counterexample to claim C4: with baseline bestMs 400 and after bestMs
700 (delta +300, no captive/DNS match) the engine does not select the
congestion/coverage message - the worsened branch also requires the after
bestMs to be at least 900 - and instead falls through to "Degraded". -/
theorem claim_c4_counterexample :
    (scoreDiagnosis true (some ⟨true, some 400, some 400, some true, some false⟩)
      (some ⟨true, some 700, some 700, some true, some false⟩) 0).label
      = "Degraded" ∧
    (scoreDiagnosis true (some ⟨true, some 400, some 400, some true, some false⟩)
      (some ⟨true, some 700, some 700, some true, some false⟩) 0).label
      ≠ "Congestion / Coverage" := by
  constructor
  · decide
  · decide

/-- Claim C4 as amended: with both results present, both bestMs non-null
and no captive/DNS rule matching, the stalled-session message is selected
when latencyDelta is at most -250 AND the baseline bestMs is at least 600,
and the congestion/coverage message when latencyDelta is at least +250 AND
the after bestMs is at least 900; baseline 1000 to after 700 yields the
stalled message, while baseline 400 to after 700 yields "Degraded". -/
theorem claim_c4_amended (b a : ScanResult) (bb ab longTaskMs : Nat)
    (hb : b.bestMs = some bb) (ha : a.bestMs = some ab)
    (hcap : a.captiveSuspected ≠ some true) (hdns : a.dnsOk ≠ some false) :
    ((ab : Int) - (bb : Int) ≤ -250 → 600 ≤ bb →
      (scoreDiagnosis true (some b) (some a) longTaskMs).label
        = "Stalled Radio Session") ∧
    (250 ≤ (ab : Int) - (bb : Int) → 900 ≤ ab →
      (scoreDiagnosis true (some b) (some a) longTaskMs).label
        = "Congestion / Coverage") ∧
    (scoreDiagnosis true (some ⟨true, some 1000, some 1000, some true, some false⟩)
      (some ⟨true, some 700, some 700, some true, some false⟩) longTaskMs).label
      = "Stalled Radio Session" ∧
    (scoreDiagnosis true (some ⟨true, some 400, some 400, some true, some false⟩)
      (some ⟨true, some 700, some 700, some true, some false⟩) longTaskMs).label
      = "Degraded" := by
  have hred : scoreDiagnosis true (some b) (some a) longTaskMs
      = deltaSuggestion (some b) (some a) (a.bestMs.getD 9999) longTaskMs := by
    simp [scoreDiagnosis, if_neg hcap, if_neg hdns]
  refine ⟨?_, ?_, ?_, ?_⟩
  · intro h1 h2
    rw [hred]
    simp only [deltaSuggestion, hb, ha]
    rw [if_pos ⟨h1, h2⟩]
  · intro h1 h2
    rw [hred]
    simp only [deltaSuggestion, hb, ha]
    rw [if_neg, if_pos ⟨h1, h2⟩]
    omega
  · simp [scoreDiagnosis, deltaSuggestion]
  · simp [scoreDiagnosis, deltaSuggestion, latencySuggestion]

/-- Witness for C4 (amended): the 1000-to-700 pair discharges the
stalled-session branch hypotheses. -/
theorem claim_c4_witness :
    (scoreDiagnosis true (some ⟨true, some 1000, some 1000, some true, some false⟩)
      (some ⟨true, some 700, some 700, some true, some false⟩) 0).label
      = "Stalled Radio Session" :=
  (claim_c4_amended ⟨true, some 1000, some 1000, some true, some false⟩
    ⟨true, some 700, some 700, some true, some false⟩ 1000 700 0 rfl rfl
    (by decide) (by decide)).1 (by decide) (by decide)

/-- Counterexample to claim C1: at online, probing enabled, captive false,
DNS not ok and bestMs 900 the code's classifier fires the latency rule
(rule 5, title "Stalled Connection") while the spec's ordered list fires
the DNS rule (rule 4) first. -/
theorem claim_c1_counterexample :
    ruleOfTitle (classifyHealth true true 900 false false).title = 5 ∧
    specHealthRule true true 900 false false = 4 ∧
    (classifyHealth true true 900 false false).title = "Stalled Connection" := by
  refine ⟨?_, ?_, ?_⟩ <;> decide

/-- Claim C1 as amended: classifyHealth implements the spec's ordered
decision list with rules 4 and 5 swapped - offline, probing disabled and
captive-suspected fire in the spec's order, but the bestMs >= 900 rule is
evaluated before the DNS rule; the emitted severity level nevertheless
agrees with the spec's list on every input. -/
theorem claim_c1_amended (online checks : Bool) (latencyMs : Nat)
    (dnsOk captiveLikely : Bool) :
    ruleOfTitle (classifyHealth online checks latencyMs dnsOk captiveLikely).title
      = amendedHealthRule online checks latencyMs dnsOk captiveLikely ∧
    (classifyHealth online checks latencyMs dnsOk captiveLikely).level
      = specRuleLevel (specHealthRule online checks latencyMs dnsOk captiveLikely) := by
  cases online <;> cases checks <;> cases dnsOk <;> cases captiveLikely <;>
    by_cases h : 900 ≤ latencyMs <;>
      simp [classifyHealth, amendedHealthRule, specHealthRule,
        ruleOfTitle, specRuleLevel, h]

/-- Along serialized traces (every scan runs to completion before the next
user action, as the spec's concurrency model requires of the orchestrator)
the strengthened session invariant holds in every reachable state. -/
theorem reachableSer_sessionInvAux (s : Session) (h : ReachableSer s) :
    SessionInvAux s := by
  induction h with
  | init =>
    exact ⟨fun h => by simp [initSession] at h, fun h => by
      simp [initSession] at h, rfl⟩
  | fullScan s env hs ih =>
    obtain ⟨inv, hph, hsc⟩ := ih
    simp only [step, hsc, Bool.false_eq_true, if_false]
    refine ⟨fun h => ⟨by simp, by simp at h⟩, fun _ => by simp, rfl⟩
  | fullAfter s env hs ih =>
    obtain ⟨inv, hph, hsc⟩ := ih
    by_cases hg : (s.abMode && s.checks && decide (s.abPhase = .baselineDone)) = true
    · simp only [Bool.and_eq_true, decide_eq_true_eq] at hg
      obtain ⟨⟨habm, hchk⟩, hbd⟩ := hg
      simp only [step, hsc, Bool.false_eq_true, if_false, habm, hchk, hbd]
      simp only [decide_True, Bool.and_self, if_true]
      exact ⟨fun _ => ⟨hph hbd, rfl⟩, fun h => by simp at h, rfl⟩
    · have h1 : step s Event.startAfter = s := by
        simp only [step, hsc, Bool.false_eq_true, if_false]
        simp [hg]
      rw [h1]
      have h2 : step s (Event.completeScan env) = s := by
        cases hst : s.stage <;> simp_all [step, Stage.isScanning]
      rw [h2]
      exact ⟨inv, hph, hsc⟩
  | toggleChecks s v hs ih =>
    obtain ⟨inv, hph, hsc⟩ := ih
    exact ⟨fun h => by simp [step] at h, fun h => by simp [step] at h, hsc⟩
  | toggleAb s v hs ih =>
    obtain ⟨inv, hph, hsc⟩ := ih
    exact ⟨fun h => by simp [step] at h, fun h => by simp [step] at h, hsc⟩

/-- Counterexample to claim C6: the invariant is not preserved by every
operation on every reachable state - toggling external checks off while the
after-reset scan is in flight clears baseline, but the in-flight scan still
installs its result as after on completion, reaching a state with after set
and baseline null. -/
theorem claim_c6_counterexample :
    Reachable (step (step (step (step (step (step initSession
        (.toggleChecks true)) .startScan)
        (.completeScan ⟨true, ⟨true, 100⟩, ⟨true, 120⟩, ⟨true, 130⟩, ⟨true, 90⟩⟩))
        .startAfter) (.toggleChecks false))
        (.completeScan ⟨true, ⟨true, 100⟩, ⟨true, 120⟩, ⟨true, 130⟩, ⟨true, 90⟩⟩)) ∧
    (step (step (step (step (step (step initSession
        (.toggleChecks true)) .startScan)
        (.completeScan ⟨true, ⟨true, 100⟩, ⟨true, 120⟩, ⟨true, 130⟩, ⟨true, 90⟩⟩))
        .startAfter) (.toggleChecks false))
        (.completeScan ⟨true, ⟨true, 100⟩, ⟨true, 120⟩, ⟨true, 130⟩, ⟨true, 90⟩⟩)).after.isSome
      = true ∧
    (step (step (step (step (step (step initSession
        (.toggleChecks true)) .startScan)
        (.completeScan ⟨true, ⟨true, 100⟩, ⟨true, 120⟩, ⟨true, 130⟩, ⟨true, 90⟩⟩))
        .startAfter) (.toggleChecks false))
        (.completeScan ⟨true, ⟨true, 100⟩, ⟨true, 120⟩, ⟨true, 130⟩, ⟨true, 90⟩⟩)).baseline
      = none ∧
    ¬ SessionInv (step (step (step (step (step (step initSession
        (.toggleChecks true)) .startScan)
        (.completeScan ⟨true, ⟨true, 100⟩, ⟨true, 120⟩, ⟨true, 130⟩, ⟨true, 90⟩⟩))
        .startAfter) (.toggleChecks false))
        (.completeScan ⟨true, ⟨true, 100⟩, ⟨true, 120⟩, ⟨true, 130⟩, ⟨true, 90⟩⟩)) :=
  ⟨Reachable.step _ _ (Reachable.step _ _ (Reachable.step _ _
      (Reachable.step _ _ (Reachable.step _ _ (Reachable.step _ _
        Reachable.init))))),
    by decide, by decide,
    fun h => absurd (h (by decide)).1 (by decide)⟩

/-- Claim C6 as amended: the ScanSession invariant (after only set when
baseline is set and abEnabled is true) holds in every state reachable under
the serialized discipline in which no user action interleaves with an
in-flight scan; independently, startAfter from any phase other than
baseline-ready is a no-op and leaves after unchanged. -/
theorem claim_c6_amended (s : Session) :
    (ReachableSer s → SessionInv s) ∧
    (s.abPhase ≠ .baselineDone →
      step s .startAfter = s ∧ (step s .startAfter).after = s.after) := by
  constructor
  · intro h
    exact (reachableSer_sessionInvAux s h).1
  · intro h
    have heq : step s .startAfter = s := by
      unfold step
      split_ifs with h1 h2
      · rfl
      · simp only [Bool.and_eq_true, decide_eq_true_eq] at h2
        exact absurd h2.2 h
      · rfl
    exact ⟨heq, by rw [heq]⟩

/-- Witness for C6 (amended): a serialized baseline-then-after trace
reaches a state with after set, where the invariant yields baseline set
and A/B mode on; and at the initial state (not baseline-ready) startAfter
is a no-op. -/
theorem claim_c6_witness :
    ((step (step (step (step (step initSession (.toggleChecks true))
        .startScan)
        (.completeScan ⟨true, ⟨true, 100⟩, ⟨true, 120⟩, ⟨true, 130⟩, ⟨true, 90⟩⟩))
        .startAfter)
        (.completeScan ⟨true, ⟨true, 100⟩, ⟨true, 120⟩, ⟨true, 130⟩, ⟨true, 90⟩⟩)).baseline.isSome
      ∧ (step (step (step (step (step initSession (.toggleChecks true))
        .startScan)
        (.completeScan ⟨true, ⟨true, 100⟩, ⟨true, 120⟩, ⟨true, 130⟩, ⟨true, 90⟩⟩))
        .startAfter)
        (.completeScan ⟨true, ⟨true, 100⟩, ⟨true, 120⟩, ⟨true, 130⟩, ⟨true, 90⟩⟩)).abMode
      = true) ∧
    step initSession .startAfter = initSession :=
  ⟨(claim_c6_amended _).1
      (ReachableSer.fullAfter _ ⟨true, ⟨true, 100⟩, ⟨true, 120⟩, ⟨true, 130⟩, ⟨true, 90⟩⟩
        (ReachableSer.fullScan _ ⟨true, ⟨true, 100⟩, ⟨true, 120⟩, ⟨true, 130⟩, ⟨true, 90⟩⟩
          (ReachableSer.toggleChecks _ true ReachableSer.init)))
      (by decide),
    ((claim_c6_amended initSession).2 (by decide)).1⟩

/-- Counterexample to claim C7: toggling probing off while a baseline scan
is in flight does clear the results at toggle time, but the in-flight scan
completes afterwards and re-installs its stale result as baseline even
though external checks are now disabled. -/
theorem claim_c7_counterexample :
    Reachable (step (step (step (step initSession (.toggleChecks true))
        .startScan) (.toggleChecks false))
        (.completeScan ⟨true, ⟨true, 100⟩, ⟨true, 120⟩, ⟨true, 130⟩, ⟨true, 90⟩⟩)) ∧
    (step (step (step (step initSession (.toggleChecks true))
        .startScan) (.toggleChecks false))
        (.completeScan ⟨true, ⟨true, 100⟩, ⟨true, 120⟩, ⟨true, 130⟩, ⟨true, 90⟩⟩)).checks
      = false ∧
    (step (step (step (step initSession (.toggleChecks true))
        .startScan) (.toggleChecks false))
        (.completeScan ⟨true, ⟨true, 100⟩, ⟨true, 120⟩, ⟨true, 130⟩, ⟨true, 90⟩⟩)).baseline.isSome
      = true :=
  ⟨Reachable.step _ _ (Reachable.step _ _ (Reachable.step _ _
      (Reachable.step _ _ Reachable.init))),
    by decide, by decide⟩

/-- Claim C7 as amended: toggling probingEnabled to false immediately
resets the session from any state - baseline, after and the A/B phase are
cleared and checks is false - and if no scan was in flight at the toggle
the reset is stable: a subsequent scan completion changes nothing; a scan
already in flight, however, still installs its result on completion. -/
theorem claim_c7_amended (s : Session) :
    (step s (.toggleChecks false)).baseline = none ∧
    (step s (.toggleChecks false)).after = none ∧
    (step s (.toggleChecks false)).abPhase = .nonePhase ∧
    (step s (.toggleChecks false)).checks = false ∧
    (s.stage.isScanning = false →
      ∀ env, step (step s (.toggleChecks false)) (.completeScan env)
        = step s (.toggleChecks false)) := by
  refine ⟨rfl, rfl, rfl, rfl, ?_⟩
  intro h env
  cases hst : s.stage <;> simp_all [step, Stage.isScanning]

/-- Witness for C7 (amended) at the initial (quiescent) state. -/
theorem claim_c7_witness :
    (step initSession (.toggleChecks false)).baseline = none ∧
    step (step initSession (.toggleChecks false))
        (.completeScan ⟨true, ⟨true, 1⟩, ⟨true, 1⟩, ⟨true, 1⟩, ⟨true, 1⟩⟩)
      = step initSession (.toggleChecks false) :=
  ⟨(claim_c7_amended initSession).1,
    (claim_c7_amended initSession).2.2.2.2 (by decide)
      ⟨true, ⟨true, 1⟩, ⟨true, 1⟩, ⟨true, 1⟩, ⟨true, 1⟩⟩⟩

/-- Claim C8: starting a scan while one is already running is a no-op -
the step returns the state unchanged, in particular the baseline field. -/
theorem claim_c8 (s : Session) (h : s.stage.isScanning = true) :
    step s .startScan = s ∧ (step s .startScan).baseline = s.baseline := by
  have heq : step s .startScan = s := by simp [step, h]
  exact ⟨heq, by rw [heq]⟩

/-- Witness for C8 at the concrete mid-scan state produced by starting a
scan from the initial state. -/
theorem claim_c8_witness :
    step (step initSession .startScan) .startScan
      = step initSession .startScan :=
  (claim_c8 (step initSession .startScan) (by decide)).1

end NetworkMedic
